import Mathlib

/-!
Verification of the fitness calculation core of the App-planer-Fitness
repository: the method normalizer `normalizeMethodKey` and the metrics
calculator `calculateFitnessMetrics` (services/api.ts), over the data
model of `types.ts`.

Modelling conventions:
* TypeScript `number` values are modelled as exact rationals (`ℚ`) for
  the purely rational computations (BMI, BMR, PAL, TDEE, targets) and as
  real numbers (`ℝ`) where `Math.log10` appears (the body-fat value);
  `Math.round` is Mathlib's `round` (round half towards +∞, as in JS),
  and `x.toFixed(1)` followed by `parseFloat` is rounding to one decimal.
* Optional fields (`neck?`, `waist?`, `hip?`) are `Option ℚ`; the JS
  truthiness test `data.neck && ...` is `truthy` (present and nonzero),
  and the non-null assertion `data.waist!` is `optVal` (value, with a
  default that is never reached under the guards of the source).
* JS strings are Lean `String`; `String.prototype.trim` is `jsTrim`
  (stripping leading/trailing whitespace) and `toLowerCase` is
  `jsToLowerCase` (ASCII case folding; all aliases are ASCII).
* `console.warn` is a side effect with no return value; the companion
  function `normalizeMethodKeyWarns` records, straight from the same
  branches of the source, whether a warning is emitted.
-/

/-! ## Data model (types.ts) -/

inductive Gender where
  | male
  | female
deriving DecidableEq

inductive Goal where
  | maintenance
  | bulking
  | cutting
deriving DecidableEq

inductive Focus where
  | strength
  | hypertrophy
deriving DecidableEq

structure UserData where
  age : ℚ
  gender : Gender
  height : ℚ
  weight : ℚ
  trainingDays : ℚ
  goal : Goal
  focus : Focus
  neck : Option ℚ
  waist : Option ℚ
  hip : Option ℚ

structure TargetCalories where
  maintenance : ℤ
  bulking : ℤ
  cutting : ℤ
deriving DecidableEq

structure FitnessResults where
  bmi : ℚ
  bodyFatPercentage : ℝ
  bodyFatMethod : String
  bmr : ℤ
  tdee : ℤ
  targetCalories : TargetCalories

/-! ## Method normalizer (normalizeMethodKey, services/api.ts lines 14-35) -/

/-- Whitespace stripped by `String.prototype.trim` (ASCII part of the JS
WhiteSpace/LineTerminator sets, plus NBSP). -/
def jsWhitespaceChar (c : Char) : Bool :=
  c = ' ' || c = '\t' || c = '\n' || c = '\r' || c = '\x0b' || c = '\x0c' || c = ' '

/-- Model of `String.prototype.trim`: drop leading and trailing whitespace. -/
def jsTrim (s : String) : String :=
  ⟨((s.data.dropWhile jsWhitespaceChar).reverse.dropWhile jsWhitespaceChar).reverse⟩

/-- Model of `String.prototype.toLowerCase` (ASCII case folding; every
alias the source compares against is ASCII). -/
def jsToLowerCase (s : String) : String :=
  ⟨s.data.map Char.toLower⟩

def navyAliases : List String := ["navy", "us_navy", "us-navy", "u.s. navy", "usnavy"]

def deurenbergAliases : List String := ["deurenberg", "deurenberg1991", "d1991"]

/-- `normalizeMethodKey` from services/api.ts: empty input short-circuits
(JS falsiness of `""`), otherwise the trimmed lower-cased key is looked up
in the alias lists, defaulting to `"deurenberg"`. Total by construction. -/
def normalizeMethodKey (method : String) : String :=
  if method = "" then "deurenberg"
  else
    let key := jsToLowerCase (jsTrim method)
    if key ∈ navyAliases then "navy"
    else if key ∈ deurenbergAliases then "deurenberg"
    else "deurenberg"

/-- Which inputs make `normalizeMethodKey` call `console.warn`: the empty
(falsy) input, and any key outside both alias lists. Read off the same
branches of the source. -/
def normalizeMethodKeyWarns (method : String) : Bool :=
  if method = "" then true
  else
    let key := jsToLowerCase (jsTrim method)
    if key ∈ navyAliases then false
    else if key ∈ deurenbergAliases then false
    else true

/-- Behaviour of `normalizeMethodKey` when a JS caller passes `undefined`:
`!method` is true for `undefined`, so the function returns `"deurenberg"`
(with a warning) without touching the string operations. -/
def normalizeMethodKeyOpt : Option String → String
  | none => "deurenberg"
  | some s => normalizeMethodKey s

/-! ## Metrics calculator (calculateFitnessMetrics, services/api.ts lines 43-126) -/

/-- Model of `Math.log10`. -/
noncomputable def log10 (x : ℝ) : ℝ := Real.logb 10 x

/-- `parseFloat(x.toFixed(1))` on a rational value: round to one decimal
(ties towards +∞, as `toFixed` picks the larger candidate). -/
def roundTo1 (q : ℚ) : ℚ := (round (10 * q) : ℤ) / 10

/-- `parseFloat(x.toFixed(1))` on a real value. -/
noncomputable def roundTo1R (x : ℝ) : ℝ := (round (10 * x) : ℤ) / 10

/-- JS truthiness of an optional numeric field: present and nonzero. -/
def truthy : Option ℚ → Bool
  | none => false
  | some x => decide (x ≠ 0)

/-- The non-null assertion `o!` of the source; under the guards of the
source the field is always present, so the default is never reached. -/
def optVal (o : Option ℚ) : ℚ := o.getD 0

/-- Step 1 of the source: `heightM = height / 100`;
`bmi = parseFloat((weight / (heightM * heightM)).toFixed(1))`. -/
def bmiOf (d : UserData) : ℚ :=
  roundTo1 (d.weight / ((d.height / 100) * (d.height / 100)))

/-- The guard `data.neck && data.waist && (data.gender === Gender.Male ||
(data.gender === Gender.Female && data.hip))` of the source. -/
def useNavyOf (d : UserData) : Bool :=
  truthy d.neck && truthy d.waist &&
    (decide (d.gender = Gender.male) ||
      (decide (d.gender = Gender.female) && truthy d.hip))

/-- The `navyIsValid` flag of the source: only set under `useNavy`;
male: `waist! > neck!`; female: `waist! + hip! > neck!`. -/
def navyIsValidOf (d : UserData) : Bool :=
  if useNavyOf d then
    if d.gender = Gender.male then
      decide (optVal d.waist > optVal d.neck)
    else
      decide (optVal d.waist + optVal d.hip > optVal d.neck)
  else false

/-- The `bodyFatMethod` tag assigned by the source: `'navy'` in the
`useNavy && navyIsValid` branch, `'deurenberg'` otherwise. -/
def bodyFatMethodOf (d : UserData) : String :=
  if useNavyOf d && navyIsValidOf d then "navy" else "deurenberg"

/-- The raw `bodyFatPercentage` before clamping: U.S. Navy formulas in the
`useNavy && navyIsValid` branch, Deurenberg (1991) on the rounded BMI
otherwise, exactly as in the source. -/
noncomputable def rawBodyFatOf (d : UserData) : ℝ :=
  if useNavyOf d && navyIsValidOf d then
    if d.gender = Gender.male then
      495 / (1.0324 - 0.19077 * log10 ((optVal d.waist : ℝ) - (optVal d.neck : ℝ))
        + 0.15456 * log10 (d.height : ℝ)) - 450
    else
      495 / (1.29579 - 0.35004 * log10 ((optVal d.waist : ℝ) + (optVal d.hip : ℝ)
        - (optVal d.neck : ℝ)) + 0.22100 * log10 (d.height : ℝ)) - 450
  else
    1.20 * (bmiOf d : ℝ) + 0.23 * (d.age : ℝ)
      - 10.8 * (if d.gender = Gender.male then 1 else 0) - 5.4

/-- `bodyFatPercentage = parseFloat(Math.max(5, Math.min(50, bodyFatPercentage)).toFixed(1))`. -/
noncomputable def bodyFatPercentageOf (d : UserData) : ℝ :=
  roundTo1R (max 5 (min 50 (rawBodyFatOf d)))

/-- BMR by Mifflin-St Jeor, then `Math.round`, as in the source. -/
def bmrOf (d : UserData) : ℤ :=
  round (if d.gender = Gender.male then
      10 * d.weight + 6.25 * d.height - 5 * d.age + 5
    else
      10 * d.weight + 6.25 * d.height - 5 * d.age - 161)

/-- The PAL ladder of the source over `trainingDays`. -/
def palOf (d : UserData) : ℚ :=
  if d.trainingDays ≤ 1 then 1.40
  else if d.trainingDays ≤ 3 then 1.55
  else if d.trainingDays ≤ 5 then 1.70
  else 1.85

/-- `tdee = Math.round(bmr * pal)` (on the already-rounded integer BMR). -/
def tdeeOf (d : UserData) : ℤ := round ((bmrOf d : ℚ) * palOf d)

/-- `cutting = tdee - Math.round(tdee * 0.15)`. -/
def cuttingOf (d : UserData) : ℤ := tdeeOf d - round ((tdeeOf d : ℚ) * 0.15)

/-- `bulking = tdee + Math.round(tdee * 0.10)`. -/
def bulkingOf (d : UserData) : ℤ := tdeeOf d + round ((tdeeOf d : ℚ) * 0.10)

/-- `calculateFitnessMetrics` from services/api.ts: assembles the result
record from the steps above (maintenance = tdee). -/
noncomputable def calculateFitnessMetrics (d : UserData) : FitnessResults :=
  { bmi := bmiOf d
    bodyFatPercentage := bodyFatPercentageOf d
    bodyFatMethod := bodyFatMethodOf d
    bmr := bmrOf d
    tdee := tdeeOf d
    targetCalories :=
      { maintenance := tdeeOf d
        bulking := bulkingOf d
        cutting := cuttingOf d } }

/-! ## Claim-side (specification) definitions -/

/-- Navy eligibility as worded in the claim/spec: neck and waist present,
and the sex is male, or the sex is female and hip is present. -/
def specNavyEligible (d : UserData) : Prop :=
  d.neck.isSome ∧ d.waist.isSome ∧
    (d.gender = Gender.male ∨ (d.gender = Gender.female ∧ d.hip.isSome))

/-- Navy validity as worded in the claim/spec: male `waist > neck`,
female `waist + hip > neck`. -/
def specNavyValid (d : UserData) : Prop :=
  if d.gender = Gender.male then optVal d.neck < optVal d.waist
  else optVal d.neck < optVal d.waist + optVal d.hip

/-- Navy eligibility amended to the code's truthiness test: neck and
waist present with a nonzero value, and the sex is male, or the sex is
female and hip is present with a nonzero value. -/
def amendedNavyEligible (d : UserData) : Prop :=
  truthy d.neck = true ∧ truthy d.waist = true ∧
    (d.gender = Gender.male ∨ (d.gender = Gender.female ∧ truthy d.hip = true))

/-- The male U.S. Navy body-fat formula as written in the spec. -/
noncomputable def specNavyMale (waist neck height : ℝ) : ℝ :=
  495 / (1.0324 - 0.19077 * log10 (waist - neck) + 0.15456 * log10 height) - 450

/-- The female U.S. Navy body-fat formula as written in the spec. -/
noncomputable def specNavyFemale (waist hip neck height : ℝ) : ℝ :=
  495 / (1.29579 - 0.35004 * log10 (waist + hip - neck) + 0.22100 * log10 height) - 450

/-- The Deurenberg (1991) body-fat formula as written in the spec. -/
noncomputable def specDeurenberg (bmi age : ℝ) (g : Gender) : ℝ :=
  1.20 * bmi + 0.23 * age - 10.8 * (if g = Gender.male then 1 else 0) - 5.4

/-- Mifflin-St Jeor BMR as written in the spec (before rounding). -/
def specMifflin (g : Gender) (weight height age : ℚ) : ℚ :=
  if g = Gender.male then 10 * weight + 6.25 * height - 5 * age + 5
  else 10 * weight + 6.25 * height - 5 * age - 161

/-- The PAL tiers as worded in the claim, over an integer weekly
training-day count. -/
def specPal (n : ℤ) : ℚ :=
  if n ≤ 1 then 1.40 else if n ≤ 3 then 1.55 else if n ≤ 5 then 1.70 else 1.85

/-! ## Concrete profiles used in counterexamples and witnesses -/

/-- The worked example of the spec: male, age 30, height 175 cm, weight
75 kg, neck 38, waist 85, training 3 days a week. -/
def dMale : UserData :=
  ⟨30, Gender.male, 175, 75, 3, Goal.maintenance, Focus.strength, some 38, some 85, none⟩

/-- A male profile whose neck circumference is present but zero. -/
def dZeroNeck : UserData :=
  ⟨30, Gender.male, 175, 75, 3, Goal.maintenance, Focus.strength, some 0, some 85, none⟩

/-- Same numeric fields as `dMale` but a different goal and focus. -/
def dGoalB : UserData :=
  ⟨30, Gender.male, 175, 75, 3, Goal.bulking, Focus.hypertrophy, some 38, some 85, none⟩

/-- A male profile (age 43.8, height 160, weight 100, 0 training days)
whose TDEE comes out exactly 2500. -/
def dTdee2500 : UserData :=
  ⟨43.8, Gender.male, 160, 100, 0, Goal.maintenance, Focus.strength, none, none, none⟩

/-! ## Shared evaluation lemmas -/

/-- Evaluate `round` at a concrete value from two linear bounds. -/
theorem round_eval {α : Type} [LinearOrderedField α] [FloorRing α] (x : α) (z : ℤ)
    (h1 : (z : α) ≤ x + 1 / 2) (h2 : x + 1 / 2 < z + 1) : round x = z := by
  rw [round_eq]
  exact Int.floor_eq_iff.mpr ⟨h1, h2⟩

/-- One-decimal rounding keeps a value of `[5, 50]` inside `[5, 50]`. -/
theorem roundTo1R_bounds (x : ℝ) (h5 : (5 : ℝ) ≤ x) (h50 : x ≤ 50) :
    5 ≤ roundTo1R x ∧ roundTo1R x ≤ 50 := by
  unfold roundTo1R
  have hlo : (50 : ℤ) ≤ round (10 * x) := by
    rw [round_eq, Int.le_floor]
    push_cast
    linarith
  have hhi : round (10 * x) ≤ 500 := by
    rw [round_eq]
    have h1 : (10 * x + 1 / 2 : ℝ) ≤ 500.5 := by linarith
    have h2 := Int.floor_mono h1
    have h3 : ⌊(500.5 : ℝ)⌋ = 500 := Int.floor_eq_iff.mpr (by norm_num)
    rw [h3] at h2
    exact h2
  constructor
  · have hc : ((50 : ℤ) : ℝ) ≤ ((round (10 * x) : ℤ) : ℝ) := by exact_mod_cast hlo
    push_cast at hc
    linarith
  · have hc : ((round (10 * x) : ℤ) : ℝ) ≤ ((500 : ℤ) : ℝ) := by exact_mod_cast hhi
    push_cast at hc
    linarith

/-- The BMR of the spec's worked example, as the code computes it. -/
theorem bmrOf_dMale : bmrOf dMale = 1699 := by
  unfold bmrOf
  have hg : dMale.gender = Gender.male := rfl
  rw [if_pos hg]
  exact round_eval _ _ (by norm_num [dMale]) (by norm_num [dMale])

/-- The source's truthiness guard agrees with the amended eligibility
predicate. -/
theorem useNavyOf_iff (d : UserData) : useNavyOf d = true ↔ amendedNavyEligible d := by
  unfold useNavyOf amendedNavyEligible
  simp only [Bool.and_eq_true, Bool.or_eq_true, decide_eq_true_eq]
  tauto

/-- Under the truthiness guard, the source's `navyIsValid` flag agrees
with the spec's validity condition. -/
theorem navyIsValidOf_iff (d : UserData) (hu : useNavyOf d = true) :
    navyIsValidOf d = true ↔ specNavyValid d := by
  unfold navyIsValidOf specNavyValid
  rw [if_pos hu]
  by_cases hg : d.gender = Gender.male
  · rw [if_pos hg, if_pos hg]
    simp [gt_iff_lt]
  · rw [if_neg hg, if_neg hg]
    simp [gt_iff_lt]

/-- The branch guard of the source is exactly amended eligibility plus
validity. -/
theorem navyBranch_iff (d : UserData) :
    (useNavyOf d && navyIsValidOf d) = true ↔ amendedNavyEligible d ∧ specNavyValid d := by
  rw [Bool.and_eq_true]
  constructor
  · rintro ⟨hu, hv⟩
    exact ⟨(useNavyOf_iff d).mp hu, (navyIsValidOf_iff d hu).mp hv⟩
  · rintro ⟨he, hv⟩
    have hu : useNavyOf d = true := (useNavyOf_iff d).mpr he
    exact ⟨hu, (navyIsValidOf_iff d hu).mpr hv⟩

/-- The TDEE of the profile `dTdee2500`, as the code computes it. -/
theorem tdeeOf_dTdee2500 : tdeeOf dTdee2500 = 2500 := by
  unfold tdeeOf
  have hb : bmrOf dTdee2500 = 1786 := by
    unfold bmrOf
    have hg : dTdee2500.gender = Gender.male := rfl
    rw [if_pos hg]
    exact round_eval _ _ (by norm_num [dTdee2500]) (by norm_num [dTdee2500])
  have hp : palOf dTdee2500 = 1.40 := by
    unfold palOf
    rw [if_pos (by norm_num [dTdee2500])]
  rw [hb, hp]
  exact round_eval _ _ (by norm_num) (by norm_num)

/-- Case analysis of `normalizeMethodKey`: the key either is a navy alias
and the result is `"navy"`, or it is not and the result is
`"deurenberg"`. -/
theorem normalizeMethodKey_cases (s : String) :
    (jsToLowerCase (jsTrim s) ∈ navyAliases ∧ normalizeMethodKey s = "navy") ∨
      (jsToLowerCase (jsTrim s) ∉ navyAliases ∧ normalizeMethodKey s = "deurenberg") := by
  unfold normalizeMethodKey
  by_cases hs : s = ""
  · subst hs
    exact Or.inr ⟨by decide, rfl⟩
  · rw [if_neg hs]
    by_cases hn : jsToLowerCase (jsTrim s) ∈ navyAliases
    · refine Or.inl ⟨hn, ?_⟩
      show (if jsToLowerCase (jsTrim s) ∈ navyAliases then "navy"
        else if jsToLowerCase (jsTrim s) ∈ deurenbergAliases then "deurenberg"
        else "deurenberg") = "navy"
      rw [if_pos hn]
    · refine Or.inr ⟨hn, ?_⟩
      show (if jsToLowerCase (jsTrim s) ∈ navyAliases then "navy"
        else if jsToLowerCase (jsTrim s) ∈ deurenbergAliases then "deurenberg"
        else "deurenberg") = "deurenberg"
      rw [if_neg hn]
      split_ifs <;> rfl

/-- When `normalizeMethodKey` warns: on the empty (falsy) input and on
keys outside both alias lists. -/
theorem normalizeMethodKeyWarns_iff (s : String) :
    normalizeMethodKeyWarns s = true ↔
      (s = "" ∨ (jsToLowerCase (jsTrim s) ∉ navyAliases ∧
        jsToLowerCase (jsTrim s) ∉ deurenbergAliases)) := by
  unfold normalizeMethodKeyWarns
  by_cases hs : s = ""
  · rw [if_pos hs]
    exact iff_of_true rfl (Or.inl hs)
  · rw [if_neg hs]
    show (if jsToLowerCase (jsTrim s) ∈ navyAliases then false
      else if jsToLowerCase (jsTrim s) ∈ deurenbergAliases then false else true) = true ↔ _
    by_cases hn : jsToLowerCase (jsTrim s) ∈ navyAliases
    · rw [if_pos hn]
      constructor
      · intro h
        exact absurd h (by decide)
      · rintro (h | ⟨h1, _⟩)
        · exact absurd h hs
        · exact absurd hn h1
    · rw [if_neg hn]
      by_cases hd : jsToLowerCase (jsTrim s) ∈ deurenbergAliases
      · rw [if_pos hd]
        constructor
        · intro h
          exact absurd h (by decide)
        · rintro (h | ⟨_, h2⟩)
          · exact absurd h hs
          · exact absurd hd h2
      · rw [if_neg hd]
        exact iff_of_true rfl (Or.inr ⟨hn, hd⟩)

/-! ## Claims -/

/-- C1: for every user profile, the `bodyFatPercentage` field of the
result of `calculateFitnessMetrics` lies in the closed interval
`[5.0, 50.0]`, regardless of which body-fat formula was used and of how
extreme the numeric inputs are. -/
theorem C1_bodyFatPercentage_in_bounds (d : UserData) :
    5 ≤ (calculateFitnessMetrics d).bodyFatPercentage ∧
      (calculateFitnessMetrics d).bodyFatPercentage ≤ 50 := by
  show 5 ≤ bodyFatPercentageOf d ∧ bodyFatPercentageOf d ≤ 50
  unfold bodyFatPercentageOf
  exact roundTo1R_bounds _ (le_max_left _ _) (max_le (by norm_num) (min_le_left _ _))

/-- C4: `normalizeMethodKey` is total over all string inputs (totality is
by construction of the Lean model, which has no exception state): after
trimming and case-folding it returns `"navy"` exactly on the five navy
aliases and `"deurenberg"` on every other input, it warns exactly on
empty or unrecognized input, and the absent (`undefined`) input also
yields `"deurenberg"`. -/
theorem C4_normalizeMethodKey_spec (s : String) :
    (normalizeMethodKey s = "navy" ↔ jsToLowerCase (jsTrim s) ∈ navyAliases) ∧
    (normalizeMethodKey s = "deurenberg" ↔ jsToLowerCase (jsTrim s) ∉ navyAliases) ∧
    (normalizeMethodKeyWarns s = true ↔
      (s = "" ∨ (jsToLowerCase (jsTrim s) ∉ navyAliases ∧
        jsToLowerCase (jsTrim s) ∉ deurenbergAliases))) ∧
    normalizeMethodKeyOpt none = "deurenberg" := by
  obtain ⟨hn, he⟩ | ⟨hn, he⟩ := normalizeMethodKey_cases s
  · refine ⟨iff_of_true he hn, iff_of_false ?_ (by simpa using hn),
      normalizeMethodKeyWarns_iff s, rfl⟩
    intro hc
    exact absurd (he.symm.trans hc) (by decide)
  · refine ⟨iff_of_false ?_ hn, iff_of_true he hn, normalizeMethodKeyWarns_iff s, rfl⟩
    intro hc
    exact absurd (he.symm.trans hc) (by decide)

/-- C8: `normalizeMethodKey` is idempotent, because both canonical
outputs are accepted aliases of themselves. -/
theorem C8_normalizeMethodKey_idempotent (s : String) :
    normalizeMethodKey (normalizeMethodKey s) = normalizeMethodKey s := by
  obtain ⟨_, he⟩ | ⟨_, he⟩ := normalizeMethodKey_cases s <;> rw [he] <;> decide

/-- C2 counterexample: a male profile whose neck is present with value 0
is Navy-eligible and Navy-valid in the claim's present/absent reading
(waist 85 > neck 0), yet the code selects `'deurenberg'`, because the
truthiness guard treats the zero neck as absent. -/
theorem C2_counterexample :
    specNavyEligible dZeroNeck ∧ specNavyValid dZeroNeck ∧
      (calculateFitnessMetrics dZeroNeck).bodyFatMethod ≠ "navy" := by
  refine ⟨⟨rfl, rfl, Or.inl rfl⟩, ?_, ?_⟩
  · show specNavyValid dZeroNeck
    unfold specNavyValid
    have hg : dZeroNeck.gender = Gender.male := rfl
    rw [if_pos hg]
    norm_num [dZeroNeck, optVal]
  · show bodyFatMethodOf dZeroNeck ≠ "navy"
    unfold bodyFatMethodOf useNavyOf
    have hz : truthy dZeroNeck.neck = false := by
      show truthy (some 0) = false
      decide
    rw [hz]
    decide

/-- C2 amended: `bodyFatMethod` is `'navy'` iff the profile is
Navy-eligible in the truthiness sense (neck and waist present with a
nonzero value, and the sex is male, or the sex is female and hip is
present with a nonzero value) and Navy-valid; in every other case it is
`'deurenberg'`. -/
theorem C2_bodyFatMethod_selection (d : UserData) :
    ((calculateFitnessMetrics d).bodyFatMethod = "navy" ↔
      amendedNavyEligible d ∧ specNavyValid d) ∧
    ((calculateFitnessMetrics d).bodyFatMethod = "deurenberg" ↔
      ¬(amendedNavyEligible d ∧ specNavyValid d)) := by
  show (bodyFatMethodOf d = "navy" ↔ _) ∧ (bodyFatMethodOf d = "deurenberg" ↔ _)
  unfold bodyFatMethodOf
  by_cases hb : (useNavyOf d && navyIsValidOf d) = true
  · rw [if_pos hb]
    exact ⟨iff_of_true rfl ((navyBranch_iff d).mp hb),
      iff_of_false (by decide) (not_not_intro ((navyBranch_iff d).mp hb))⟩
  · rw [if_neg hb]
    exact ⟨iff_of_false (by decide) (fun hc => hb ((navyBranch_iff d).mpr hc)),
      iff_of_true rfl (fun hc => hb ((navyBranch_iff d).mpr hc))⟩

/-- C10: a circumference supplied as 0 is treated as absent: with
`neck = 0` or `waist = 0` (or a female profile with `hip = 0`) the
Deurenberg fallback is selected. -/
theorem C10_zero_measurement_deurenberg (d : UserData)
    (h : d.neck = some 0 ∨ d.waist = some 0 ∨
      (d.gender = Gender.female ∧ d.hip = some 0)) :
    (calculateFitnessMetrics d).bodyFatMethod = "deurenberg" := by
  show bodyFatMethodOf d = "deurenberg"
  unfold bodyFatMethodOf
  have hz : truthy (some (0 : ℚ)) = false := by decide
  have hu : useNavyOf d = false := by
    unfold useNavyOf
    rcases h with h | h | ⟨hg, hh⟩
    · rw [h, hz]
      simp
    · rw [h, hz]
      simp
    · rw [hg, hh, hz]
      simp
  rw [hu]
  simp

/-- C10 witness: the concrete zero-neck profile falls back to
Deurenberg. -/
theorem C10_witness : (calculateFitnessMetrics dZeroNeck).bodyFatMethod = "deurenberg" :=
  C10_zero_measurement_deurenberg dZeroNeck (Or.inl rfl)

/-- C3: when the Navy method is selected the body fat is the male or
female U.S. Navy formula of the spec (by sex), when Deurenberg is
selected it is the Deurenberg formula on the one-decimal-rounded BMI and
the age; in all cases the raw value is clamped to `[5, 50]` and rounded
to one decimal. -/
theorem C3_bodyFat_formulas (d : UserData) :
    ((calculateFitnessMetrics d).bodyFatMethod = "navy" → d.gender = Gender.male →
      (calculateFitnessMetrics d).bodyFatPercentage =
        roundTo1R (max 5 (min 50 (specNavyMale (optVal d.waist : ℝ) (optVal d.neck : ℝ)
          (d.height : ℝ))))) ∧
    ((calculateFitnessMetrics d).bodyFatMethod = "navy" → d.gender = Gender.female →
      (calculateFitnessMetrics d).bodyFatPercentage =
        roundTo1R (max 5 (min 50 (specNavyFemale (optVal d.waist : ℝ) (optVal d.hip : ℝ)
          (optVal d.neck : ℝ) (d.height : ℝ))))) ∧
    ((calculateFitnessMetrics d).bodyFatMethod = "deurenberg" →
      (calculateFitnessMetrics d).bodyFatPercentage =
        roundTo1R (max 5 (min 50 (specDeurenberg (bmiOf d : ℝ) (d.age : ℝ) d.gender)))) := by
  show ((bodyFatMethodOf d = "navy" → _ → bodyFatPercentageOf d = _) ∧
    (bodyFatMethodOf d = "navy" → _ → bodyFatPercentageOf d = _) ∧
    (bodyFatMethodOf d = "deurenberg" → bodyFatPercentageOf d = _))
  unfold bodyFatMethodOf bodyFatPercentageOf rawBodyFatOf
  by_cases hb : (useNavyOf d && navyIsValidOf d) = true
  · rw [if_pos hb, if_pos hb]
    refine ⟨fun _ hmale => ?_, fun _ hfem => ?_, fun hc => absurd hc (by decide)⟩
    · rw [if_pos hmale]
      rfl
    · have hnm : ¬d.gender = Gender.male := by
        rw [hfem]
        decide
      rw [if_neg hnm]
      rfl
  · rw [if_neg hb, if_neg hb]
    refine ⟨fun hc _ => absurd hc (by decide), fun hc _ => absurd hc (by decide), fun _ => ?_⟩
    rfl

/-- C3 witness: the spec's worked male example selects the Navy method
and its body fat is the clamped, one-decimal-rounded male Navy formula at
waist 85, neck 38, height 175. -/
theorem C3_witness :
    (calculateFitnessMetrics dMale).bodyFatMethod = "navy" ∧
      dMale.gender = Gender.male ∧
      (calculateFitnessMetrics dMale).bodyFatPercentage =
        roundTo1R (max 5 (min 50 (specNavyMale (optVal dMale.waist : ℝ)
          (optVal dMale.neck : ℝ) (dMale.height : ℝ)))) := by
  have hmethod : (calculateFitnessMetrics dMale).bodyFatMethod = "navy" := by
    show bodyFatMethodOf dMale = "navy"
    decide
  exact ⟨hmethod, rfl, (C3_bodyFat_formulas dMale).1 hmethod rfl⟩

/-- C5 counterexample: at the spec's own worked example (male, age 30,
height 175 cm, weight 75 kg) the code's BMR is
`round(10·75 + 6.25·175 − 5·30 + 5) = round(1698.75) = 1699`, not the
1649 stated by the claim. -/
theorem C5_counterexample :
    (calculateFitnessMetrics dMale).bmr = 1699 ∧
      (calculateFitnessMetrics dMale).bmr ≠ 1649 := by
  have h : (calculateFitnessMetrics dMale).bmr = 1699 := bmrOf_dMale
  refine ⟨h, ?_⟩
  rw [h]
  decide

/-- C5 amended: `calculateFitnessMetrics` computes BMR as the rounded
Mifflin-St Jeor value (male `10·weight + 6.25·height − 5·age + 5`, female
`10·weight + 6.25·height − 5·age − 161`); in particular, for a male of
age 30, height 175 cm and weight 75 kg the BMR is 1699. -/
theorem C5_bmr_mifflin :
    (∀ d : UserData,
      (calculateFitnessMetrics d).bmr = round (specMifflin d.gender d.weight d.height d.age)) ∧
    (calculateFitnessMetrics dMale).bmr = 1699 := by
  refine ⟨fun d => ?_, bmrOf_dMale⟩
  show bmrOf d = _
  unfold bmrOf specMifflin
  rfl

/-- C6: for a profile whose weekly training-day count is the integer `n`,
the activity multiplier follows the tiers `n ≤ 1 → 1.40`, `2-3 → 1.55`,
`4-5 → 1.70`, `≥ 6 → 1.85`, and `tdee = round(BMR · PAL)` on the
already-rounded integer BMR. -/
theorem C6_tdee_from_pal (d : UserData) (n : ℤ) (h : d.trainingDays = (n : ℚ)) :
    palOf d = specPal n ∧
      (calculateFitnessMetrics d).tdee =
        round (((calculateFitnessMetrics d).bmr : ℚ) * palOf d) := by
  constructor
  · unfold palOf specPal
    rw [h]
    rcases le_or_lt n 1 with h1 | h1
    · rw [if_pos (by exact_mod_cast h1), if_pos h1]
    · rw [if_neg (by exact_mod_cast h1.not_le), if_neg h1.not_le]
      rcases le_or_lt n 3 with h2 | h2
      · rw [if_pos (by exact_mod_cast h2), if_pos h2]
      · rw [if_neg (by exact_mod_cast h2.not_le), if_neg h2.not_le]
        rcases le_or_lt n 5 with h3 | h3
        · rw [if_pos (by exact_mod_cast h3), if_pos h3]
        · rw [if_neg (by exact_mod_cast h3.not_le), if_neg h3.not_le]
  · rfl

/-- C6 witness: the worked example trains 3 days a week, so its PAL is
the 2-3 tier and its TDEE is `round(BMR · PAL)`. -/
theorem C6_witness :
    palOf dMale = specPal 3 ∧
      (calculateFitnessMetrics dMale).tdee =
        round (((calculateFitnessMetrics dMale).bmr : ℚ) * palOf dMale) :=
  C6_tdee_from_pal dMale 3 (by norm_num [dMale])

/-- C7: the target-calorie record satisfies `maintenance = TDEE`,
`cutting = TDEE − round(TDEE·0.15)` and `bulking = TDEE + round(TDEE·0.10)`;
in particular a TDEE of 2500 yields cutting 2125 and bulking 2750. -/
theorem C7_targetCalories (d : UserData) :
    (calculateFitnessMetrics d).targetCalories.maintenance = (calculateFitnessMetrics d).tdee ∧
    (calculateFitnessMetrics d).targetCalories.cutting =
      (calculateFitnessMetrics d).tdee -
        round (((calculateFitnessMetrics d).tdee : ℚ) * 0.15) ∧
    (calculateFitnessMetrics d).targetCalories.bulking =
      (calculateFitnessMetrics d).tdee +
        round (((calculateFitnessMetrics d).tdee : ℚ) * 0.10) ∧
    ((calculateFitnessMetrics d).tdee = 2500 →
      (calculateFitnessMetrics d).targetCalories.cutting = 2125 ∧
      (calculateFitnessMetrics d).targetCalories.bulking = 2750) := by
  refine ⟨rfl, rfl, rfl, fun h => ?_⟩
  have htd : tdeeOf d = 2500 := h
  constructor
  · show cuttingOf d = 2125
    unfold cuttingOf
    rw [htd]
    rw [round_eval (((2500 : ℤ) : ℚ) * 0.15) 375 (by norm_num) (by norm_num)]
    decide
  · show bulkingOf d = 2750
    unfold bulkingOf
    rw [htd]
    rw [round_eval (((2500 : ℤ) : ℚ) * 0.10) 250 (by norm_num) (by norm_num)]
    decide

/-- C7 witness: a concrete profile whose TDEE is exactly 2500 has
cutting 2125 and bulking 2750. -/
theorem C7_witness :
    (calculateFitnessMetrics dTdee2500).tdee = 2500 ∧
      (calculateFitnessMetrics dTdee2500).targetCalories.cutting = 2125 ∧
      (calculateFitnessMetrics dTdee2500).targetCalories.bulking = 2750 := by
  have htd : (calculateFitnessMetrics dTdee2500).tdee = 2500 := tdeeOf_dTdee2500
  have h := (C7_targetCalories dTdee2500).2.2.2 htd
  exact ⟨htd, h.1, h.2⟩

/-- C9: the result does not depend on the goal and focus fields: two
profiles that agree on age, gender, height, weight, trainingDays, neck,
waist and hip get equal results. -/
theorem C9_goal_focus_noninterference (d1 d2 : UserData)
    (hage : d1.age = d2.age) (hg : d1.gender = d2.gender)
    (hh : d1.height = d2.height) (hw : d1.weight = d2.weight)
    (ht : d1.trainingDays = d2.trainingDays) (hn : d1.neck = d2.neck)
    (hwa : d1.waist = d2.waist) (hhip : d1.hip = d2.hip) :
    calculateFitnessMetrics d1 = calculateFitnessMetrics d2 := by
  obtain ⟨a1, g1, h1, w1, t1, go1, f1, n1, wa1, hi1⟩ := d1
  obtain ⟨a2, g2, h2, w2, t2, go2, f2, n2, wa2, hi2⟩ := d2
  dsimp only at hage hg hh hw ht hn hwa hhip
  subst hage hg hh hw ht hn hwa hhip
  rfl

/-- C9 witness: the worked example with goal maintenance / focus strength
and the same numbers with goal bulking / focus hypertrophy give equal
results. -/
theorem C9_witness : calculateFitnessMetrics dMale = calculateFitnessMetrics dGoalB :=
  C9_goal_focus_noninterference dMale dGoalB rfl rfl rfl rfl rfl rfl rfl rfl
